import Mathlib

set_option maxRecDepth 8000

/-!
Shallow embedding of the Flight Delay Analytics pipeline
(`src/flight_delay.py`): loading/cleaning of the CSV columns, feature
engineering, IQR anomaly detection, the sidebar filter chain, the KPI
means, and the CSV export of the filtered table.  Numeric cells are
modelled as `Option ℚ` (pandas `NaN` = `none`), datetime cells as
`Option CalDate` (`NaT` = `none`).
-/

namespace FlightDelay

/-- A calendar date (pandas `Timestamp` at midnight). -/
structure CalDate where
  year : ℕ
  month : ℕ
  day : ℕ
  deriving DecidableEq, Repr

/-- Lexicographic order on dates, as pandas compares Timestamps. -/
def dateLe (a b : CalDate) : Bool :=
  if a.year ≠ b.year then a.year ≤ b.year
  else if a.month ≠ b.month then a.month ≤ b.month
  else a.day ≤ b.day

/-- One cleaned row of the dataframe, before feature engineering:
the nineteen source columns with their post-`Cleaner` types
(`flight_delay.py` lines 36-53). -/
structure CleanRecord where
  date : Option CalDate
  airline : String
  origin : String
  dest : String
  depTime : Option ℚ
  arrTime : Option ℚ
  crsArrTime : Option ℚ
  actualElapsedTime : Option ℚ
  crsElapsedTime : Option ℚ
  airTime : Option ℚ
  arrDelay : ℚ
  distance : Option ℚ
  taxiIn : Option ℚ
  taxiOut : Option ℚ
  carrierDelay : ℚ
  weatherDelay : ℚ
  nasDelay : ℚ
  securityDelay : ℚ
  lateAircraftDelay : ℚ
  deriving DecidableEq, Repr

/-- A row after feature engineering (`flight_delay.py` lines 56-61):
the cleaned columns plus the four derived columns. -/
structure FlightRecord where
  date : Option CalDate
  airline : String
  origin : String
  dest : String
  depTime : Option ℚ
  arrTime : Option ℚ
  crsArrTime : Option ℚ
  actualElapsedTime : Option ℚ
  crsElapsedTime : Option ℚ
  airTime : Option ℚ
  arrDelay : ℚ
  distance : Option ℚ
  taxiIn : Option ℚ
  taxiOut : Option ℚ
  carrierDelay : ℚ
  weatherDelay : ℚ
  nasDelay : ℚ
  securityDelay : ℚ
  lateAircraftDelay : ℚ
  totalDelayMinutes : ℚ
  onTime : ℚ
  delayPer100Miles : Option ℚ
  month : Option ℕ
  deriving DecidableEq, Repr

/-- Feature engineering (`flight_delay.py` lines 56-61): sum of the five
delay components, `OnTime = np.where(ArrDelay <= 15, 1, 0)`,
`Delay_per_100_miles = ArrDelay / Distance * 100` (undefined when the
distance is absent or zero), `Month = Date.dt.month`. -/
def enrich (r : CleanRecord) : FlightRecord :=
  { date := r.date
    airline := r.airline
    origin := r.origin
    dest := r.dest
    depTime := r.depTime
    arrTime := r.arrTime
    crsArrTime := r.crsArrTime
    actualElapsedTime := r.actualElapsedTime
    crsElapsedTime := r.crsElapsedTime
    airTime := r.airTime
    arrDelay := r.arrDelay
    distance := r.distance
    taxiIn := r.taxiIn
    taxiOut := r.taxiOut
    carrierDelay := r.carrierDelay
    weatherDelay := r.weatherDelay
    nasDelay := r.nasDelay
    securityDelay := r.securityDelay
    lateAircraftDelay := r.lateAircraftDelay
    totalDelayMinutes := r.carrierDelay + r.weatherDelay + r.nasDelay +
      r.securityDelay + r.lateAircraftDelay
    onTime := if r.arrDelay ≤ 15 then 1 else 0
    delayPer100Miles :=
      match r.distance with
      | none => none
      | some d => if d = 0 then none else some (r.arrDelay / d * 100)
    month := r.date.map (fun d => d.month) }

/-- A dataset is the ordered list of rows of the dataframe. -/
abbrev Dataset := List FlightRecord

/-- The sidebar filter selections (`flight_delay.py` lines 90-94):
`dateRange = none` models the transient state where `date_range` does
not hold two endpoints, and an empty list models an empty multiselect. -/
structure FilterSpec where
  dateRange : Option (CalDate × CalDate)
  carriers : List String
  origins : List String
  dests : List String

/-- Date-range test of `flight_delay.py` lines 99-100: a `NaT` date
compares false on both sides, so a record with an absent date fails. -/
def dateInRange (a b : CalDate) (r : FlightRecord) : Bool :=
  match r.date with
  | some d => dateLe a d && dateLe d b
  | none => false

/-- The filter chain of `flight_delay.py` lines 97-106: the date mask is
applied when the widget holds two endpoints, and each multiselect mask
is applied when its selection is non-empty. -/
def applyFilter (df : Dataset) (fs : FilterSpec) : Dataset :=
  let f1 :=
    match fs.dateRange with
    | some (a, b) => df.filter (dateInRange a b)
    | none => df
  let f2 := if fs.carriers = [] then f1 else
    f1.filter (fun r => fs.carriers.contains r.airline)
  let f3 := if fs.origins = [] then f2 else
    f2.filter (fun r => fs.origins.contains r.origin)
  if fs.dests = [] then f3 else f3.filter (fun r => fs.dests.contains r.dest)

/-- The conjunction of the four predicates, with an inactive dimension
contributing `true`; used to normalise `applyFilter` to one
`List.filter`. -/
def passes (fs : FilterSpec) (r : FlightRecord) : Bool :=
  (match fs.dateRange with
   | some (a, b) => dateInRange a b r
   | none => true) &&
  (decide (fs.carriers = []) || fs.carriers.contains r.airline) &&
  (decide (fs.origins = []) || fs.origins.contains r.origin) &&
  (decide (fs.dests = []) || fs.dests.contains r.dest)

/-- Mean of a series with every value present: `NaN` (here `none`) on an
empty series, as pandas `Series.mean` returns. -/
def meanQ (xs : List ℚ) : Option ℚ :=
  if xs = [] then none else some (xs.sum / xs.length)

/-- Mean of a series that may hold `NaN`s: pandas skips them
(`skipna=True`) and yields `NaN` when nothing remains. -/
def meanDefined (xs : List (Option ℚ)) : Option ℚ :=
  meanQ (xs.filterMap id)

/-- KPI `avg_delay = filtered['ArrDelay'].mean()` (line 113). -/
def avg_delay (filtered : Dataset) : Option ℚ :=
  meanQ (filtered.map (fun r => r.arrDelay))

/-- KPI `pct_ontime = filtered['OnTime'].mean() * 100` (line 114). -/
def pct_ontime (filtered : Dataset) : Option ℚ :=
  (meanQ (filtered.map (fun r => r.onTime))).map (fun x => x * 100)

/-- KPI `avg_distance = filtered['Distance'].mean()` (line 115). -/
def avg_distance (filtered : Dataset) : Option ℚ :=
  meanDefined (filtered.map (fun r => r.distance))

/-- KPI `total_flights = filtered.shape[0]` (line 116). -/
def total_flights (filtered : Dataset) : ℕ := filtered.length

/-- Insertion into a sorted list of rationals. -/
def insertSorted (x : ℚ) : List ℚ → List ℚ
  | [] => [x]
  | y :: ys => if x ≤ y then x :: y :: ys else y :: insertSorted x ys

/-- Ascending insertion sort, the order `Series.quantile` ranks by. -/
def sortQ (xs : List ℚ) : List ℚ := xs.foldr insertSorted []

/-- `Series.quantile(p)` with the default linear interpolation between
closest ranks: position `h = (n-1)p`, result
`s[⌊h⌋] + (h-⌊h⌋) · (s[⌊h⌋+1] - s[⌊h⌋])`; `NaN` on an empty series. -/
def quantile (xs : List ℚ) (p : ℚ) : Option ℚ :=
  match sortQ xs with
  | [] => none
  | s =>
    let n := s.length
    let h : ℚ := ((n - 1 : ℕ) : ℚ) * p
    let i : ℕ := h.floor.toNat
    let lo := s.getD i 0
    let hi := s.getD (min (i + 1) (n - 1)) 0
    some (lo + (h - (i : ℚ)) * (hi - lo))

/-- `q1, q3 = df['ArrDelay'].quantile([0.25, 0.75])` (line 64). -/
def q1Of (df : Dataset) : Option ℚ :=
  quantile (df.map (fun r => r.arrDelay)) (1 / 4)

/-- The 75th percentile of `ArrDelay` (line 64). -/
def q3Of (df : Dataset) : Option ℚ :=
  quantile (df.map (fun r => r.arrDelay)) (3 / 4)

/-- `iqr = q3 - q1` (line 65). -/
def iqrOf (df : Dataset) : Option ℚ :=
  match q1Of df, q3Of df with
  | some q1, some q3 => some (q3 - q1)
  | _, _ => none

/-- `upper_limit = q3 + 1.5 * iqr` (line 66), computed from the full
unfiltered dataframe. -/
def upper_limit (df : Dataset) : Option ℚ :=
  match q1Of df, q3Of df with
  | some q1, some q3 => some (q3 + 3 / 2 * (q3 - q1))
  | _, _ => none

/-- `anomalies = df[df['ArrDelay'] > upper_limit]` (line 67): on an
empty dataframe the threshold is `NaN` and every comparison with it is
false, so the anomaly subset is empty. -/
def anomalies (df : Dataset) : Dataset :=
  match upper_limit df with
  | some u => df.filter (fun r => decide (u < r.arrDelay))
  | none => []

/-- One script run of the dashboard for a given uploaded dataframe and
a given state of the sidebar widgets: the values the presentation layer
receives.  The anomaly outputs (lines 64-67, 169-170) are computed from
`df`; the KPIs (lines 113-116) from the filtered view. -/
structure Outputs where
  upperLimit : Option ℚ
  anomalyRows : Dataset
  anomalyCount : ℕ
  anomalyDisplay : List (Option CalDate × String × String × String × ℚ)
  avgDelay : Option ℚ
  pctOntime : Option ℚ
  avgDistance : Option ℚ
  totalFlights : ℕ

/-- The dashboard computation, re-run in full on every widget change. -/
def dashboard (df : Dataset) (fs : FilterSpec) : Outputs :=
  let filtered := applyFilter df fs
  { upperLimit := upper_limit df
    anomalyRows := anomalies df
    anomalyCount := (anomalies df).length
    anomalyDisplay := ((anomalies df).take 10).map
      (fun r => (r.date, r.airline, r.origin, r.dest, r.arrDelay))
    avgDelay := avg_delay filtered
    pctOntime := pct_ontime filtered
    avgDistance := avg_distance filtered
    totalFlights := total_flights filtered }

/-! Cell-level text handling: the decimal strings pandas reads
(`pd.read_csv` + `pd.to_numeric(errors='coerce')`), the `%d-%m-%Y`
datetime format of `pd.to_datetime` (line 36), and the renderings
`DataFrame.to_csv` writes (line 187): floats in decimal notation,
datetimes in ISO `YYYY-MM-DD` order, `NaN`/`NaT` as the empty string. -/

/-- The character for one decimal digit. -/
def digitChar (d : ℕ) : Char := Char.ofNat (48 + d)

/-- The numeric value of one decimal digit character. -/
def charDigit (ch : Char) : ℕ := ch.toNat - 48

/-- The value of a most-significant-first digit string. -/
def valDigits (l : List Char) : ℕ :=
  l.foldl (fun a ch => a * 10 + charDigit ch) 0

/-- Parse a non-empty all-digit string. -/
def parseDigits (l : List Char) : Option ℕ :=
  if !l.isEmpty && l.all Char.isDigit then some (valDigits l) else none

/-- Base-10 digits of `n`, least significant first, with explicit fuel
so the recursion is structural. -/
def natDigitsRev : ℕ → ℕ → List ℕ
  | 0, _ => []
  | _ + 1, 0 => []
  | fuel + 1, n + 1 => ((n + 1) % 10) :: natDigitsRev fuel ((n + 1) / 10)

/-- Decimal rendering of a natural number (empty for `0`; every use
site pads with zeroes). -/
def renderNat (n : ℕ) : List Char :=
  ((natDigitsRev n n).map digitChar).reverse

/-- Left-pad with `'0'` to width `w`. -/
def padZero (w : ℕ) (l : List Char) : List Char :=
  List.replicate (w - l.length) '0' ++ l

/-- Split on a separator character; `n` separators yield `n + 1`
(possibly empty) fields. -/
def splitOnChar (sep : Char) : List Char → List (List Char)
  | [] => [[]]
  | c :: cs =>
    if c = sep then [] :: splitOnChar sep cs
    else
      match splitOnChar sep cs with
      | [] => [[c]]
      | h :: t => (c :: h) :: t

/-- Parse an unsigned decimal string, with or without a decimal point,
as `pd.to_numeric` accepts. -/
def parseUFloat (l : List Char) : Option ℚ :=
  match splitOnChar '.' l with
  | [a] => (parseDigits a).map (fun n => (n : ℚ))
  | [a, b] =>
    match parseDigits a, parseDigits b with
    | some ia, some fb => some ((ia : ℚ) + (fb : ℚ) / 10 ^ b.length)
    | _, _ => none
  | _ => none

/-- `pd.to_numeric(errors='coerce')` on one text cell: a decimal
number, or `NaN` (`none`) when unparseable; the empty cell is `NaN`. -/
def parseFloat (s : String) : Option ℚ :=
  match s.toList with
  | [] => none
  | c :: cs =>
    if c = '-' then (parseUFloat cs).map (fun x => -x) else parseUFloat (c :: cs)

/-- Smallest exponent `k ≤ 1100` with `den ∣ 10 ^ k`: every float64
value has such a finite decimal expansion. -/
def findExp (den : ℕ) : Option ℕ :=
  (List.range 1101).find? (fun k => 10 ^ k % den == 0)

/-- `q` has a finite decimal expansion (true of every float64 value the
real pipeline produces). -/
def isDecimal (q : ℚ) : Bool := (findExp q.den).isSome

/-- Decimal rendering of a rational with finite decimal expansion, in
the `intpart.fracpart` shape Python float `repr` gives `to_csv`
(e.g. `90.0`, `12.5`, `-3.25`). -/
def renderFloatL (q : ℚ) : List Char :=
  match findExp q.den with
  | none => ['?']
  | some k =>
    let ds := padZero (k + 1) (renderNat (q.num.natAbs * (10 ^ k / q.den)))
    let ip := ds.take (ds.length - k)
    let fp := if k = 0 then ['0'] else ds.drop (ds.length - k)
    (if q < 0 then ['-'] else []) ++ ip ++ '.' :: fp

/-- String form of `renderFloatL`. -/
def renderFloat (q : ℚ) : String := String.mk (renderFloatL q)

/-- Gregorian leap-year rule, as pandas validates dates. -/
def isLeap (y : ℕ) : Bool :=
  y % 4 == 0 && (y % 100 != 0 || y % 400 == 0)

/-- Days in a month, for the calendar validity check of
`pd.to_datetime`. -/
def daysInMonth (m y : ℕ) : ℕ :=
  if m = 2 then (if isLeap y then 29 else 28)
  else if m = 4 ∨ m = 6 ∨ m = 9 ∨ m = 11 then 30
  else 31

/-- A 1-2 digit `strptime` field (`%d`, `%m`) with its value range. -/
def parseField2 (l : List Char) (lo hi : ℕ) : Option ℕ :=
  if l.length ≤ 2 then
    (parseDigits l).bind (fun v => if lo ≤ v ∧ v ≤ hi then some v else none)
  else none

/-- `pd.to_datetime(format='%d-%m-%Y', errors='coerce')` on one text
cell (line 36): day and month are 1-2 digit fields, the year exactly
four digits, the calendar must be valid; anything else is `NaT`. -/
def parseDMYL (l : List Char) : Option CalDate :=
  match splitOnChar '-' l with
  | [df, mf, yf] =>
    match parseField2 df 1 31, parseField2 mf 1 12,
          (if yf.length = 4 then parseDigits yf else none) with
    | some d, some m, some y =>
      if d ≤ daysInMonth m y then some (CalDate.mk y m d) else none
    | _, _, _ => none
  | _ => none

/-- String form of `parseDMYL`. -/
def parseDMY (s : String) : Option CalDate := parseDMYL s.toList

/-- The ISO `YYYY-MM-DD` rendering `DataFrame.to_csv` writes for a
datetime column holding dates. -/
def renderISOdate (d : CalDate) : String :=
  String.mk (padZero 4 (renderNat d.year) ++
    '-' :: (padZero 2 (renderNat d.month) ++ '-' :: padZero 2 (renderNat d.day)))

/-! The column-indexed view of one dataframe row, used to state the
Cleaner's per-column contract (`flight_delay.py` lines 36-53) and the
CSV round trip (lines 185-190 back through lines 32-53). -/

/-- The nineteen columns of the uploaded table. -/
inductive Col
  | Date | Airline | Origin | Dest
  | DepTime | ArrTime | CRSArrTime | ActualElapsedTime | CRSElapsedTime
  | AirTime | ArrDelay | Distance | TaxiIn | TaxiOut
  | CarrierDelay | WeatherDelay | NASDelay | SecurityDelay | LateAircraftDelay
  deriving DecidableEq, Repr

/-- One dataframe cell: text, numeric (`none` = `NaN`), or datetime
(`none` = `NaT`). -/
inductive Cell
  | str (s : String)
  | num (q : Option ℚ)
  | date (d : Option CalDate)
  deriving DecidableEq, Repr

/-- A dataframe row, indexed by column. -/
abbrev Row := Col → Cell

/-- The `numeric_cols` list of `flight_delay.py` lines 37-41, in source
order. -/
def numeric_cols : List Col :=
  [.DepTime, .ArrTime, .CRSArrTime, .ActualElapsedTime, .CRSElapsedTime,
   .AirTime, .ArrDelay, .Distance, .TaxiIn, .TaxiOut,
   .CarrierDelay, .WeatherDelay, .NASDelay, .SecurityDelay, .LateAircraftDelay]

/-- Column assignment `df[col] = v`. -/
def setCol (r : Row) (c : Col) (v : Cell) : Row :=
  fun c' => if c' = c then v else r c'

/-- `pd.to_numeric(errors='coerce')` on one cell. -/
def to_numeric : Cell → Cell
  | .str s => .num (parseFloat s)
  | .num q => .num q
  | .date _ => .num none

/-- `pd.to_datetime(format='%d-%m-%Y', errors='coerce')` on one cell. -/
def to_datetime : Cell → Cell
  | .str s => .date (parseDMY s)
  | .num _ => .date none
  | .date d => .date d

/-- The `df.fillna({...})` dictionary of lines 46-53. -/
def fillna_dict : List (Col × ℚ) :=
  [(.CarrierDelay, 0), (.WeatherDelay, 0), (.NASDelay, 0),
   (.SecurityDelay, 0), (.LateAircraftDelay, 0), (.ArrDelay, 0)]

/-- `fillna` on one cell: only a numeric `NaN` is replaced. -/
def fillnaCell (c : Cell) (v : ℚ) : Cell :=
  match c with
  | .num none => .num (some v)
  | c => c

/-- The Cleaner (lines 36-53): datetime coercion of `Date`, numeric
coercion of each column of `numeric_cols` in order, then the `fillna`
dictionary. -/
def cleanRow (r : Row) : Row :=
  let r1 := setCol r .Date (to_datetime (r .Date))
  let r2 := numeric_cols.foldl (fun acc c => setCol acc c (to_numeric (acc c))) r1
  fillna_dict.foldl (fun acc cv => setCol acc cv.1 (fillnaCell (acc cv.1) cv.2)) r2

/-- The numeric payload of a cell. -/
def numOf : Cell → Option ℚ
  | .num q => q
  | _ => none

/-- The spec's per-column description of the Cleaner (spec section 4.2):
`date` parsed day-month-year, each declared-numeric column parsed with
absent on failure, the five delay columns and `arrDelay` additionally
defaulted to 0 when absent, and no other column touched. -/
def cleanSpec (r : Row) : Row := fun c =>
  if c = .Date then to_datetime (r .Date)
  else if (fillna_dict.map Prod.fst).contains c then
    .num (some ((numOf (to_numeric (r c))).getD 0))
  else if numeric_cols.contains c then to_numeric (r c)
  else r c

/-- `DataFrame.to_csv` on one cell (line 187): text verbatim, floats in
decimal notation, dates in ISO order, `NaN`/`NaT` as empty. -/
def exportCell : Cell → String
  | .str s => s
  | .num none => ""
  | .num (some q) => renderFloat q
  | .date none => ""
  | .date (some d) => renderISOdate d

/-- The exported CSV fields of one row. -/
def exportRow (r : Row) : Col → String := fun c => exportCell (r c)

/-- Re-loading one CSV row through the Loader and Cleaner
(lines 32-53): every field arrives as text and is cleaned. -/
def loadRow (raw : Col → String) : Row :=
  cleanRow (fun c => .str (raw c))

/-- CSV export of a filtered table, row by row (line 187). -/
def exportTable (ds : List Row) : List (Col → String) := ds.map exportRow

/-- Re-loading an exported table through the Loader and Cleaner. -/
def loadTable (rows : List (Col → String)) : List Row := rows.map loadRow

/-- Export one row and load it back. -/
def roundTripRow (r : Row) : Row := loadRow (exportRow r)

/-- The three text columns. -/
def textCols : List Col := [.Airline, .Origin, .Dest]

/-- A datetime cell. -/
def wfDateCell : Cell → Bool
  | .date _ => true
  | _ => false

/-- A non-empty text cell (an empty text cell would re-load as `NaN`). -/
def wfTextCell : Cell → Bool
  | .str s => !s.isEmpty
  | _ => false

/-- A defined decimal numeric cell, as the six `fillna` columns hold
after cleaning. -/
def wfSixCell : Cell → Bool
  | .num (some q) => isDecimal q
  | _ => false

/-- A numeric cell: absent, or a decimal value. -/
def wfNumCell : Cell → Bool
  | .num none => true
  | .num (some q) => isDecimal q
  | _ => false

/-- Cells a cleaned, filtered dataframe can hold in column `c`:
a datetime in `Date`; non-empty text in the text columns; a decimal
numeric elsewhere, never `NaN` in the six `fillna` columns. -/
def wfCell (c : Col) (v : Cell) : Bool :=
  if c = .Date then wfDateCell v
  else if textCols.contains c then wfTextCell v
  else if (fillna_dict.map Prod.fst).contains c then wfSixCell v
  else wfNumCell v

/-- All nineteen columns. -/
def colList : List Col :=
  [.Date, .Airline, .Origin, .Dest,
   .DepTime, .ArrTime, .CRSArrTime, .ActualElapsedTime, .CRSElapsedTime,
   .AirTime, .ArrDelay, .Distance, .TaxiIn, .TaxiOut,
   .CarrierDelay, .WeatherDelay, .NASDelay, .SecurityDelay, .LateAircraftDelay]

/-- Row-level well-formedness. -/
def wfRow (r : Row) : Bool := colList.all (fun c => wfCell c (r c))

/-! Concrete sample data for the witnesses. -/

/-- A cleaned record with the given key fields and every other
optional column absent. -/
def mkRec (d : Option CalDate) (airline origin dest : String)
    (delay : ℚ) (dist : Option ℚ) : CleanRecord :=
  { date := d, airline := airline, origin := origin, dest := dest,
    depTime := none, arrTime := none, crsArrTime := none,
    actualElapsedTime := none, crsElapsedTime := none, airTime := none,
    arrDelay := delay, distance := dist, taxiIn := none, taxiOut := none,
    carrierDelay := 0, weatherDelay := 0, nasDelay := 0,
    securityDelay := 0, lateAircraftDelay := 0 }

/-- The five-flight dataset of the spec's worked IQR example: arrival
delays 5, 10, 12, 15, 90. -/
def ds8 : Dataset :=
  [enrich (mkRec (some (CalDate.mk 2019 1 23)) "AA" "JFK" "LAX" 5 (some 100)),
   enrich (mkRec (some (CalDate.mk 2019 1 24)) "AA" "JFK" "LAX" 10 (some 100)),
   enrich (mkRec (some (CalDate.mk 2019 1 25)) "AA" "JFK" "LAX" 12 (some 100)),
   enrich (mkRec (some (CalDate.mk 2019 1 26)) "AA" "JFK" "LAX" 15 (some 100)),
   enrich (mkRec (some (CalDate.mk 2019 1 27)) "AA" "JFK" "LAX" 90 (some 100))]

/-- A one-flight dataset together with a record lacking a date. -/
def dsW : Dataset :=
  [enrich (mkRec (some (CalDate.mk 2019 2 1)) "UA" "SFO" "ORD" 20 (some 500)),
   enrich (mkRec none "UA" "SFO" "ORD" 30 (some 500))]

/-- A filter selecting a carrier absent from `dsW`: the filtered view
is empty. -/
def fsZZ : FilterSpec := { dateRange := none, carriers := ["ZZ"], origins := [], dests := [] }

/-- A filter whose date range is active. -/
def fsDate : FilterSpec :=
  { dateRange := some (CalDate.mk 2019 1 1, CalDate.mk 2019 12 31),
    carriers := [], origins := [], dests := [] }

/-- A well-formed cleaned row with a defined date, used to exhibit the
round-trip behaviour concretely. -/
def row0 : Row := fun c =>
  match c with
  | .Date => .date (some (CalDate.mk 2019 1 23))
  | .Airline => .str "AA"
  | .Origin => .str "JFK"
  | .Dest => .str "LAX"
  | .ArrDelay => .num (some (45 / 2))
  | .CarrierDelay => .num (some 0)
  | .WeatherDelay => .num (some 0)
  | .NASDelay => .num (some 0)
  | .SecurityDelay => .num (some 0)
  | .LateAircraftDelay => .num (some 12)
  | .Distance => .num (some (2475 / 2))
  | _ => .num none

end FlightDelay

namespace FlightDelay

/-! Filter-engine lemmas: the four-stage chain of `flight_delay.py`
lines 97-106 normalises to one `List.filter` by the conjunction of the
active predicates. -/

theorem applyFilter_eq_filter (df : Dataset) (fs : FilterSpec) :
    applyFilter df fs = df.filter (fun r => passes fs r) := by
  obtain ⟨dr, cs, os, dst⟩ := fs
  rcases dr with _ | ⟨a, b⟩ <;>
    by_cases hcs : cs = [] <;> by_cases hos : os = [] <;>
    by_cases hdst : dst = [] <;>
    simp [applyFilter, passes, hcs, hos, hdst, List.filter_filter,
      List.filter_true, Bool.and_assoc, Bool.and_comm, Bool.and_left_comm]

/-- Claim C1: the anomaly threshold `upper_limit` is computed from the
full unfiltered dataframe (lines 64-66); for any two filter
selections the dashboard reports the same threshold, and it always
equals the value computed at load time. -/
theorem threshold_filter_invariant (df : Dataset) (fs fs' : FilterSpec) :
    (dashboard df fs).upperLimit = (dashboard df fs').upperLimit ∧
      (dashboard df fs).upperLimit = upper_limit df :=
  ⟨rfl, rfl⟩

/-- Claim C2: when the filtered view has zero rows, each mean-valued
KPI of lines 113-115 is the distinguished `none` (pandas `NaN`), not a
crash, a division by zero, or a silent zero. -/
theorem kpi_empty_no_data (df : Dataset) (fs : FilterSpec)
    (h : applyFilter df fs = []) :
    (dashboard df fs).avgDelay = none ∧
      (dashboard df fs).pctOntime = none ∧
      (dashboard df fs).avgDistance = none := by
  simp [dashboard, h, avg_delay, pct_ontime, avg_distance, meanQ, meanDefined]

/-- Witness for C2: filtering the two-flight dataset `dsW` by the
absent carrier `ZZ` yields zero rows, and all three mean KPIs report
no data. -/
theorem kpi_empty_no_data_witness :
    applyFilter dsW fsZZ = [] ∧
      (dashboard dsW fsZZ).avgDelay = none ∧
      (dashboard dsW fsZZ).pctOntime = none ∧
      (dashboard dsW fsZZ).avgDistance = none :=
  have h : applyFilter dsW fsZZ = [] := by with_unfolding_all decide
  ⟨h, (kpi_empty_no_data dsW fsZZ h).1, (kpi_empty_no_data dsW fsZZ h).2.1,
    (kpi_empty_no_data dsW fsZZ h).2.2⟩

/-- Claim C5: with an active date range (lines 98-100) a record whose
date is absent fails the range mask (`NaT` compares false), so it is
excluded from the filtered view whatever the other predicates are. -/
theorem date_filter_excludes_absent (df : Dataset) (fs : FilterSpec)
    (a b : CalDate) (r : FlightRecord)
    (hfs : fs.dateRange = some (a, b)) (hr : r.date = none) :
    r ∉ applyFilter df fs := by
  rw [applyFilter_eq_filter]
  intro hmem
  have h := (List.mem_filter.mp hmem).2
  unfold passes at h
  rw [hfs] at h
  simp [dateInRange, hr] at h

/-- Witness for C5: the dateless flight of `dsW` is excluded once the
date range of `fsDate` is active. -/
theorem date_filter_excludes_absent_witness :
    fsDate.dateRange = some (CalDate.mk 2019 1 1, CalDate.mk 2019 12 31) ∧
      (enrich (mkRec none "UA" "SFO" "ORD" 30 (some 500))).date = none ∧
      enrich (mkRec none "UA" "SFO" "ORD" 30 (some 500)) ∉ applyFilter dsW fsDate :=
  ⟨rfl, rfl,
    date_filter_excludes_absent dsW fsDate (CalDate.mk 2019 1 1)
      (CalDate.mk 2019 12 31) (enrich (mkRec none "UA" "SFO" "ORD" 30 (some 500)))
      rfl rfl⟩

/-- Claim C6: the all-empty filter selection (no date range, empty
carrier, origin and destination selections) leaves the dataframe
unchanged: the same rows, values and order. -/
theorem empty_filterspec_identity (df : Dataset) :
    applyFilter df { dateRange := none, carriers := [], origins := [], dests := [] } = df :=
  rfl

/-- Claim C7: the filter chain is idempotent: filtering an
already-filtered dataframe with the same selections changes nothing. -/
theorem filter_idempotent (df : Dataset) (fs : FilterSpec) :
    applyFilter (applyFilter df fs) fs = applyFilter df fs := by
  simp [applyFilter_eq_filter, List.filter_filter]

/-- Claim C8: on arrival delays `[5, 10, 12, 15, 90]` the linear
interpolation quantiles of line 64 give `Q1 = 10`, `Q3 = 15`,
`IQR = 5`, `upper_limit = 22.5`, and exactly the delay-90 flight is
anomalous. -/
theorem iqr_example :
    q1Of ds8 = some 10 ∧ q3Of ds8 = some 15 ∧ iqrOf ds8 = some 5 ∧
      upper_limit ds8 = some (45 / 2) ∧
      anomalies ds8 =
        [enrich (mkRec (some (CalDate.mk 2019 1 27)) "AA" "JFK" "LAX" 90 (some 100))] := by
  with_unfolding_all decide

/-- Claim C10: the anomaly listing and count shown at lines 169-170 are
always the `arrDelay > upper_limit` subset of the full unfiltered
dataframe: identical for any two filter selections, never restricted
by them. -/
theorem anomaly_display_unfiltered (df : Dataset) (fs fs' : FilterSpec) :
    (dashboard df fs).anomalyRows = anomalies df ∧
      (dashboard df fs).anomalyCount = (anomalies df).length ∧
      (dashboard df fs).anomalyDisplay = ((anomalies df).take 10).map
        (fun r => (r.date, r.airline, r.origin, r.dest, r.arrDelay)) ∧
      (dashboard df fs).anomalyRows = (dashboard df fs').anomalyRows ∧
      (dashboard df fs).anomalyCount = (dashboard df fs').anomalyCount ∧
      (dashboard df fs).anomalyDisplay = (dashboard df fs').anomalyDisplay ∧
      (∀ u, upper_limit df = some u →
        anomalies df = df.filter (fun r => decide (u < r.arrDelay))) := by
  refine ⟨rfl, rfl, rfl, rfl, rfl, rfl, ?_⟩
  intro u hu
  simp [anomalies, hu]

/-- Witness for C10: on `ds8` the displayed anomaly subset is the
threshold-exceeding subset of the full dataframe. -/
theorem anomaly_display_unfiltered_witness :
    upper_limit ds8 = some (45 / 2) ∧
      anomalies ds8 = ds8.filter (fun r => decide ((45 : ℚ) / 2 < r.arrDelay)) :=
  have hu : upper_limit ds8 = some (45 / 2) := by with_unfolding_all decide
  ⟨hu, (anomaly_display_unfiltered ds8 fsZZ fsDate).2.2.2.2.2.2 (45 / 2) hu⟩

/-! The Cleaner's per-column contract (claim C9). -/

theorem fillnaCell_to_numeric (x : Cell) :
    fillnaCell (to_numeric x) 0 = .num (some ((numOf (to_numeric x)).getD 0)) := by
  cases x with
  | str s => cases hp : parseFloat s <;> simp [to_numeric, fillnaCell, numOf, hp]
  | num q => cases q <;> rfl
  | date d => rfl

/-- Claim C9: the Cleaner pipeline (datetime coercion, the
`numeric_cols` loop, the `fillna` dictionary of lines 46-53) gives each
column exactly its contracted value: the six `fillna` columns are the
parse result with absent defaulted to 0, every other numeric column is
the bare parse result (absent on failure), the date column the parsed
date, and the text columns are untouched — no other column receives a
default substitution. -/
theorem cleaner_contract (r : Row) (c : Col) : cleanRow r c = cleanSpec r c := by
  cases c <;>
    simp [cleanRow, cleanSpec, numeric_cols, fillna_dict, setCol,
      fillnaCell_to_numeric]

/-! Digit-string lemmas for the CSV round trip (claim C3). -/

theorem charDigit_digitChar (d : ℕ) (h : d < 10) :
    charDigit (digitChar d) = d := by
  interval_cases d <;> decide

theorem isDigit_digitChar (d : ℕ) (h : d < 10) :
    (digitChar d).isDigit = true := by
  interval_cases d <;> decide

theorem digit_ne_dash {c : Char} (hc : c.isDigit = true) : ¬(c = '-') := by
  intro he
  subst he
  exact absurd hc (by decide)

theorem digit_ne_dot {c : Char} (hc : c.isDigit = true) : ¬(c = '.') := by
  intro he
  subst he
  exact absurd hc (by decide)

theorem valDigits_foldl (l : List Char) (a : ℕ) :
    l.foldl (fun a ch => a * 10 + charDigit ch) a =
      a * 10 ^ l.length + valDigits l := by
  induction l generalizing a with
  | nil => simp [valDigits]
  | cons c cs ih =>
    have h1 : (c :: cs).foldl (fun a ch => a * 10 + charDigit ch) a =
        cs.foldl (fun a ch => a * 10 + charDigit ch) (a * 10 + charDigit c) := rfl
    have h2 : valDigits (c :: cs) =
        cs.foldl (fun a ch => a * 10 + charDigit ch) (0 * 10 + charDigit c) := rfl
    rw [h1, h2, ih, ih (0 * 10 + charDigit c), List.length_cons]
    ring

theorem valDigits_append (xs ys : List Char) :
    valDigits (xs ++ ys) = valDigits xs * 10 ^ ys.length + valDigits ys := by
  unfold valDigits
  rw [List.foldl_append]
  exact valDigits_foldl ys _

theorem valDigits_replicate (z : ℕ) :
    valDigits (List.replicate z '0') = 0 := by
  induction z with
  | zero => rfl
  | succ n ih =>
    rw [List.replicate_succ]
    show (List.replicate n '0').foldl (fun a ch => a * 10 + charDigit ch)
      (0 * 10 + charDigit '0') = 0
    have h0 : 0 * 10 + charDigit '0' = 0 := by decide
    rw [h0]
    exact ih

theorem natDigitsRev_lt (fuel n : ℕ) :
    ∀ d ∈ natDigitsRev fuel n, d < 10 := by
  induction fuel generalizing n with
  | zero => intro d hd; simp [natDigitsRev] at hd
  | succ f ih =>
    intro d hd
    cases n with
    | zero => simp [natDigitsRev] at hd
    | succ m =>
      rw [natDigitsRev] at hd
      rcases List.mem_cons.mp hd with h | h
      · subst h; exact Nat.mod_lt _ (by omega)
      · exact ih _ d h

theorem natDigitsRev_ofDigits (fuel n : ℕ) (h : n ≤ fuel) :
    Nat.ofDigits 10 (natDigitsRev fuel n) = n := by
  induction fuel generalizing n with
  | zero =>
    have : n = 0 := Nat.le_zero.mp h
    subst this
    rfl
  | succ f ih =>
    cases n with
    | zero => rfl
    | succ m =>
      rw [natDigitsRev, Nat.ofDigits_cons]
      have hdiv : (m + 1) / 10 ≤ f := by
        have := Nat.div_lt_self (Nat.succ_pos m) (by omega : 1 < 10)
        omega
      rw [ih _ hdiv]
      omega

theorem valDigits_rev_map (ds : List ℕ) (h : ∀ d ∈ ds, d < 10) :
    valDigits ((ds.map digitChar).reverse) = Nat.ofDigits 10 ds := by
  induction ds with
  | nil => rfl
  | cons d ds ih =>
    rw [List.map_cons, List.reverse_cons, valDigits_append,
      ih (fun x hx => h x (List.mem_cons_of_mem _ hx)), Nat.ofDigits_cons]
    have hd : d < 10 := h d (List.mem_cons_self _ _)
    have h1 : valDigits [digitChar d] = d := by
      show 0 * 10 + charDigit (digitChar d) = d
      rw [charDigit_digitChar d hd]
      omega
    rw [h1]
    simp
    ring

theorem valDigits_renderNat (n : ℕ) : valDigits (renderNat n) = n := by
  unfold renderNat
  rw [valDigits_rev_map _ (natDigitsRev_lt n n)]
  exact natDigitsRev_ofDigits n n le_rfl

theorem renderNat_digits (n : ℕ) : ∀ c ∈ renderNat n, c.isDigit = true := by
  intro c hc
  unfold renderNat at hc
  rw [List.mem_reverse] at hc
  obtain ⟨d, hd, rfl⟩ := List.mem_map.mp hc
  exact isDigit_digitChar d (natDigitsRev_lt n n d hd)

theorem padZero_digits (w : ℕ) (l : List Char)
    (h : ∀ c ∈ l, c.isDigit = true) :
    ∀ c ∈ padZero w l, c.isDigit = true := by
  intro c hc
  unfold padZero at hc
  rcases List.mem_append.mp hc with h1 | h1
  · rw [List.eq_of_mem_replicate h1]; decide
  · exact h c h1

theorem valDigits_padZero (w : ℕ) (l : List Char) :
    valDigits (padZero w l) = valDigits l := by
  unfold padZero
  rw [valDigits_append, valDigits_replicate]
  ring

theorem padZero_length (w : ℕ) (l : List Char) :
    (padZero w l).length = max w l.length := by
  unfold padZero
  rw [List.length_append, List.length_replicate]
  omega

theorem parseDigits_eq_some (l : List Char) (hne : l ≠ [])
    (hd : ∀ c ∈ l, c.isDigit = true) :
    parseDigits l = some (valDigits l) := by
  have h1 : l.isEmpty = false := by
    cases l with
    | nil => exact absurd rfl hne
    | cons x xs => rfl
  have h2 : l.all Char.isDigit = true := List.all_eq_true.mpr hd
  unfold parseDigits
  rw [h1, h2]
  rfl

theorem splitOnChar_not_mem (sep : Char) (l : List Char) (h : sep ∉ l) :
    splitOnChar sep l = [l] := by
  induction l with
  | nil => rfl
  | cons c cs ih =>
    have hc : ¬(c = sep) := by
      intro he
      exact h (by rw [← he]; exact List.mem_cons_self c cs)
    have hcs : sep ∉ cs := fun hm => h (List.mem_cons_of_mem _ hm)
    simp [splitOnChar, hc, ih hcs]

theorem splitOnChar_append (sep : Char) (a b : List Char) (h : sep ∉ a) :
    splitOnChar sep (a ++ sep :: b) = a :: splitOnChar sep b := by
  induction a with
  | nil => simp [splitOnChar]
  | cons c cs ih =>
    have hc : ¬(c = sep) := by
      intro he
      exact h (by rw [← he]; exact List.mem_cons_self c cs)
    have hcs : sep ∉ cs := fun hm => h (List.mem_cons_of_mem _ hm)
    rw [List.cons_append]
    simp [splitOnChar, hc, ih hcs]

/-! Decimal round trip: a float64 cell printed by `to_csv` re-parses to
the same value under `pd.to_numeric`. -/

theorem findExp_dvd {den k : ℕ} (h : findExp den = some k) : den ∣ 10 ^ k := by
  have hb := List.find?_some h
  exact Nat.dvd_of_mod_eq_zero (by simpa using hb)

theorem parseFloat_mk_cons (c : Char) (cs : List Char) :
    parseFloat (String.mk (c :: cs)) =
      if c = '-' then (parseUFloat cs).map (fun x => -x)
      else parseUFloat (c :: cs) := rfl

theorem parseUFloat_digits (ip fp : List Char)
    (hip : ip ≠ []) (hipd : ∀ c ∈ ip, c.isDigit = true)
    (hfp : fp ≠ []) (hfpd : ∀ c ∈ fp, c.isDigit = true) :
    parseUFloat (ip ++ '.' :: fp) =
      some ((valDigits ip : ℚ) + (valDigits fp : ℚ) / 10 ^ fp.length) := by
  have hdip : '.' ∉ ip := fun hm => digit_ne_dot (hipd '.' hm) rfl
  have hdfp : '.' ∉ fp := fun hm => digit_ne_dot (hfpd '.' hm) rfl
  unfold parseUFloat
  rw [splitOnChar_append '.' ip fp hdip, splitOnChar_not_mem '.' fp hdfp]
  show (match parseDigits ip, parseDigits fp with
    | some ia, some fb => some ((ia : ℚ) + (fb : ℚ) / 10 ^ fp.length)
    | _, _ => none) = _
  rw [parseDigits_eq_some ip hip hipd, parseDigits_eq_some fp hfp hfpd]

theorem parseFloat_renderFloat (q : ℚ) (h : isDecimal q = true) :
    parseFloat (renderFloat q) = some q := by
  cases hfe : findExp q.den with
  | none =>
    exfalso
    unfold isDecimal at h
    rw [hfe] at h
    simp at h
  | some k =>
  have hdvd : q.den ∣ 10 ^ k := findExp_dvd hfe
  have hdenpos : 0 < q.den := q.den_pos
  have hden : (0 : ℚ) < (q.den : ℚ) := by exact_mod_cast hdenpos
  set m := q.num.natAbs * (10 ^ k / q.den) with hm
  set ds := padZero (k + 1) (renderNat m) with hds
  have hdsd : ∀ c ∈ ds, c.isDigit = true :=
    padZero_digits _ _ (renderNat_digits m)
  have hdsv : valDigits ds = m := by
    rw [hds, valDigits_padZero, valDigits_renderNat]
  have hdsl : k + 1 ≤ ds.length := by
    rw [hds, padZero_length]
    exact le_max_left _ _
  set ip := ds.take (ds.length - k) with hip
  set fp0 := ds.drop (ds.length - k) with hfp0
  have hipl : ip.length = ds.length - k := by
    rw [hip, List.length_take]
    omega
  have hfpl : fp0.length = k := by
    rw [hfp0, List.length_drop]
    omega
  have hipne : ip ≠ [] := by
    apply List.ne_nil_of_length_pos
    rw [hipl]
    omega
  have hipd : ∀ c ∈ ip, c.isDigit = true :=
    fun c hc => hdsd c (List.mem_of_mem_take hc)
  have hfpd : ∀ c ∈ fp0, c.isDigit = true :=
    fun c hc => hdsd c (List.mem_of_mem_drop hc)
  have hvsum : valDigits ip * 10 ^ k + valDigits fp0 = m := by
    have hcat : ip ++ fp0 = ds := List.take_append_drop _ _
    have hva := valDigits_append ip fp0
    rw [hcat, hdsv, hfpl] at hva
    omega
  have hq10 : (m : ℚ) = |q| * 10 ^ k := by
    have hc : (10 ^ k / q.den) * q.den = 10 ^ k := Nat.div_mul_cancel hdvd
    have hmden : m * q.den = q.num.natAbs * 10 ^ k := by
      rw [hm, mul_assoc, hc]
    have hcast : (m : ℚ) * (q.den : ℚ) = (q.num.natAbs : ℚ) * 10 ^ k := by
      exact_mod_cast congrArg (fun n : ℕ => (n : ℚ)) hmden
    have habs : |q| = (q.num.natAbs : ℚ) / (q.den : ℚ) := by
      conv_lhs => rw [← Rat.num_div_den q]
      rw [abs_div, abs_of_pos hden, Int.cast_natAbs, Int.cast_abs]
    rw [habs, div_mul_eq_mul_div, eq_div_iff (ne_of_gt hden)]
    exact hcast
  have hrender : renderFloatL q =
      (if q < 0 then ['-'] else []) ++ ip ++ '.' ::
        (if k = 0 then ['0'] else fp0) := by
    rw [hip, hfp0, hds, hm]
    unfold renderFloatL
    rw [hfe]
  have hval : parseUFloat (ip ++ '.' :: (if k = 0 then ['0'] else fp0)) =
      some |q| := by
    rcases Nat.eq_zero_or_pos k with hk0 | hkpos
    · subst hk0
      have hfp0nil : fp0 = [] := List.length_eq_zero.mp (by rw [hfpl])
      have hipm : valDigits ip = m := by
        have hnil : valDigits fp0 = 0 := by rw [hfp0nil]; rfl
        omega
      rw [if_pos rfl,
        parseUFloat_digits ip ['0'] hipne hipd (List.cons_ne_nil _ _) (by decide)]
      rw [hipm, show valDigits ['0'] = 0 from by decide, hq10]
      norm_num
    · rw [if_neg (by omega : ¬k = 0)]
      have hfpne : fp0 ≠ [] := List.ne_nil_of_length_pos (by rw [hfpl]; omega)
      rw [parseUFloat_digits ip fp0 hipne hipd hfpne hfpd, hfpl]
      have habsval : |q| = (m : ℚ) / 10 ^ k := by
        rw [hq10]
        field_simp
      rw [habsval]
      congr 1
      field_simp
      exact_mod_cast hvsum
  by_cases hq : q < 0
  · have hr2 : renderFloatL q =
        '-' :: (ip ++ '.' :: (if k = 0 then ['0'] else fp0)) := by
      rw [hrender, if_pos hq]
      rfl
    unfold renderFloat
    rw [hr2, parseFloat_mk_cons, if_pos rfl, hval]
    simp [abs_of_neg hq]
  · have hr2 : renderFloatL q = ip ++ '.' :: (if k = 0 then ['0'] else fp0) := by
      rw [hrender, if_neg hq]
      rfl
    cases hipe : ip with
    | nil => exact absurd hipe hipne
    | cons c cs' =>
      have hcd : c.isDigit = true :=
        hipd c (by rw [hipe]; exact List.mem_cons_self _ _)
      unfold renderFloat
      rw [hr2, hipe, List.cons_append, parseFloat_mk_cons,
        if_neg (digit_ne_dash hcd), ← List.cons_append, ← hipe, hval]
      rw [abs_of_nonneg (not_lt.mp hq)]

/-- Sanity check: a concrete decimal survives print-then-parse. -/
theorem renderFloat_round_example : parseFloat (renderFloat (45 / 2)) = some (45 / 2) := by
  with_unfolding_all decide

/-- Sanity check: an empty cell parses to `NaN`. -/
theorem parseFloat_empty_string : parseFloat "" = none := by
  with_unfolding_all decide

/-- Sanity check: the Cleaner accepts the upload's own `DD-MM-YYYY`
format. -/
theorem parseDMY_dmy_example : parseDMY "23-01-2019" = some (CalDate.mk 2019 1 23) := by
  with_unfolding_all decide

/-- Sanity check: the ISO form `to_csv` writes is rejected by the
`%d-%m-%Y` parse. -/
theorem parseDMY_iso_example : parseDMY (renderISOdate (CalDate.mk 2019 1 23)) = none := by
  with_unfolding_all decide

/-- Sanity check: the concrete row `row0` is well-formed. -/
theorem wfRow_row0 : wfRow row0 = true := by with_unfolding_all decide

/-! The date-format mismatch: `to_csv` writes ISO year-month-day, the
Cleaner re-parses day-month-year, so every exported date re-loads as
`NaT`. -/

theorem parseDMY_renderISO (d : CalDate) : parseDMY (renderISOdate d) = none := by
  unfold parseDMY renderISOdate
  show parseDMYL (padZero 4 (renderNat d.year) ++
    '-' :: (padZero 2 (renderNat d.month) ++ '-' :: padZero 2 (renderNat d.day))) = none
  unfold parseDMYL
  have hy : '-' ∉ padZero 4 (renderNat d.year) := fun hm =>
    digit_ne_dash (padZero_digits _ _ (renderNat_digits _) '-' hm) rfl
  have hmm : '-' ∉ padZero 2 (renderNat d.month) := fun hm =>
    digit_ne_dash (padZero_digits _ _ (renderNat_digits _) '-' hm) rfl
  have hdd : '-' ∉ padZero 2 (renderNat d.day) := fun hm =>
    digit_ne_dash (padZero_digits _ _ (renderNat_digits _) '-' hm) rfl
  rw [splitOnChar_append '-' _ _ hy, splitOnChar_append '-' _ _ hmm,
    splitOnChar_not_mem '-' _ hdd]
  have hdf : parseField2 (padZero 4 (renderNat d.year)) 1 31 = none := by
    have hlen : ¬((padZero 4 (renderNat d.year)).length ≤ 2) := by
      rw [padZero_length]
      omega
    unfold parseField2
    rw [if_neg hlen]
  show (match parseField2 (padZero 4 (renderNat d.year)) 1 31,
      parseField2 (padZero 2 (renderNat d.month)) 1 12,
      (if (padZero 2 (renderNat d.day)).length = 4
       then parseDigits (padZero 2 (renderNat d.day)) else none) with
    | some dd, some mm, some yy =>
      if dd ≤ daysInMonth mm yy then some (CalDate.mk yy mm dd) else none
    | _, _, _ => none) = none
  rw [hdf]

theorem parseFloat_empty : parseFloat (exportCell (Cell.num none)) = none := rfl

theorem parseDMY_empty : parseDMY (exportCell (Cell.date none)) = none := rfl

/-! Per-cell round-trip behaviour, by column class. -/

theorem roundcell_date (v : Cell) (hv : wfDateCell v = true) :
    Cell.date (parseDMY (exportCell v)) = Cell.date none := by
  cases v with
  | str s => simp [wfDateCell] at hv
  | num q => simp [wfDateCell] at hv
  | date o =>
    cases o with
    | none => rw [parseDMY_empty]
    | some dd =>
      show Cell.date (parseDMY (renderISOdate dd)) = Cell.date none
      rw [parseDMY_renderISO]

theorem roundcell_text (v : Cell) (hv : wfTextCell v = true) :
    Cell.str (exportCell v) = v := by
  cases v with
  | str s => rfl
  | num q => simp [wfTextCell] at hv
  | date o => simp [wfTextCell] at hv

theorem roundcell_num (v : Cell) (hv : wfNumCell v = true) :
    Cell.num (parseFloat (exportCell v)) = v := by
  cases v with
  | str s => simp [wfNumCell] at hv
  | date o => simp [wfNumCell] at hv
  | num o =>
    cases o with
    | none => rw [parseFloat_empty]
    | some q =>
      show Cell.num (parseFloat (renderFloat q)) = Cell.num (some q)
      rw [parseFloat_renderFloat q hv]

theorem roundcell_six (v : Cell) (hv : wfSixCell v = true) :
    fillnaCell (Cell.num (parseFloat (exportCell v))) 0 = v := by
  cases v with
  | str s => simp [wfSixCell] at hv
  | date o => simp [wfSixCell] at hv
  | num o =>
    cases o with
    | none => simp [wfSixCell] at hv
    | some q =>
      show fillnaCell (Cell.num (parseFloat (renderFloat q))) 0 = Cell.num (some q)
      rw [parseFloat_renderFloat q hv]
      rfl

theorem roundTripRow_eq (r : Row) (hwf : wfRow r = true) (c : Col) :
    roundTripRow r c = setCol r Col.Date (Cell.date none) c := by
  have hw : ∀ c ∈ colList, wfCell c (r c) = true := List.all_eq_true.mp hwf
  cases c with
  | Date =>
    show Cell.date (parseDMY (exportCell (r Col.Date))) = Cell.date none
    exact roundcell_date _ (hw Col.Date (by decide))
  | Airline =>
    show Cell.str (exportCell (r Col.Airline)) = r Col.Airline
    exact roundcell_text _ (hw Col.Airline (by decide))
  | Origin =>
    show Cell.str (exportCell (r Col.Origin)) = r Col.Origin
    exact roundcell_text _ (hw Col.Origin (by decide))
  | Dest =>
    show Cell.str (exportCell (r Col.Dest)) = r Col.Dest
    exact roundcell_text _ (hw Col.Dest (by decide))
  | DepTime =>
    show Cell.num (parseFloat (exportCell (r Col.DepTime))) = r Col.DepTime
    exact roundcell_num _ (hw Col.DepTime (by decide))
  | ArrTime =>
    show Cell.num (parseFloat (exportCell (r Col.ArrTime))) = r Col.ArrTime
    exact roundcell_num _ (hw Col.ArrTime (by decide))
  | CRSArrTime =>
    show Cell.num (parseFloat (exportCell (r Col.CRSArrTime))) = r Col.CRSArrTime
    exact roundcell_num _ (hw Col.CRSArrTime (by decide))
  | ActualElapsedTime =>
    show Cell.num (parseFloat (exportCell (r Col.ActualElapsedTime))) =
      r Col.ActualElapsedTime
    exact roundcell_num _ (hw Col.ActualElapsedTime (by decide))
  | CRSElapsedTime =>
    show Cell.num (parseFloat (exportCell (r Col.CRSElapsedTime))) =
      r Col.CRSElapsedTime
    exact roundcell_num _ (hw Col.CRSElapsedTime (by decide))
  | AirTime =>
    show Cell.num (parseFloat (exportCell (r Col.AirTime))) = r Col.AirTime
    exact roundcell_num _ (hw Col.AirTime (by decide))
  | Distance =>
    show Cell.num (parseFloat (exportCell (r Col.Distance))) = r Col.Distance
    exact roundcell_num _ (hw Col.Distance (by decide))
  | TaxiIn =>
    show Cell.num (parseFloat (exportCell (r Col.TaxiIn))) = r Col.TaxiIn
    exact roundcell_num _ (hw Col.TaxiIn (by decide))
  | TaxiOut =>
    show Cell.num (parseFloat (exportCell (r Col.TaxiOut))) = r Col.TaxiOut
    exact roundcell_num _ (hw Col.TaxiOut (by decide))
  | ArrDelay =>
    show fillnaCell (Cell.num (parseFloat (exportCell (r Col.ArrDelay)))) 0 =
      r Col.ArrDelay
    exact roundcell_six _ (hw Col.ArrDelay (by decide))
  | CarrierDelay =>
    show fillnaCell (Cell.num (parseFloat (exportCell (r Col.CarrierDelay)))) 0 =
      r Col.CarrierDelay
    exact roundcell_six _ (hw Col.CarrierDelay (by decide))
  | WeatherDelay =>
    show fillnaCell (Cell.num (parseFloat (exportCell (r Col.WeatherDelay)))) 0 =
      r Col.WeatherDelay
    exact roundcell_six _ (hw Col.WeatherDelay (by decide))
  | NASDelay =>
    show fillnaCell (Cell.num (parseFloat (exportCell (r Col.NASDelay)))) 0 =
      r Col.NASDelay
    exact roundcell_six _ (hw Col.NASDelay (by decide))
  | SecurityDelay =>
    show fillnaCell (Cell.num (parseFloat (exportCell (r Col.SecurityDelay)))) 0 =
      r Col.SecurityDelay
    exact roundcell_six _ (hw Col.SecurityDelay (by decide))
  | LateAircraftDelay =>
    show fillnaCell (Cell.num (parseFloat (exportCell (r Col.LateAircraftDelay)))) 0 =
      r Col.LateAircraftDelay
    exact roundcell_six _ (hw Col.LateAircraftDelay (by decide))

/-- Claim C3 counterexample: the cleaned row `row0` carries the defined
date 23-01-2019, but exporting it with `to_csv` (ISO `2019-01-23`) and
re-loading through the Loader and Cleaner (format `%d-%m-%Y`,
`errors='coerce'`) yields an absent date — the set of defined field
values is not preserved, so the round-trip claim fails as stated. -/
theorem csv_round_trip_cex :
    [row0].map (fun r => r Col.Date) = [Cell.date (some (CalDate.mk 2019 1 23))] ∧
      (loadTable (exportTable [row0])).map (fun r => r Col.Date) = [Cell.date none] := by
  constructor
  · rfl
  · with_unfolding_all decide

/-- Claim C3 (amended): exporting a filtered table to CSV and re-loading
it through the Loader and Cleaner preserves every defined field value in
every column except `date` (text verbatim, numeric cells — absent or
decimal — exactly, the six `fillna` columns kept defined), while every
date, defined or not, re-loads as absent because the export is written
year-month-day and the Cleaner parses day-month-year. -/
theorem csv_round_trip_amended (ds : List Row) (hwf : ∀ r ∈ ds, wfRow r = true) :
    loadTable (exportTable ds) =
      ds.map (fun r => setCol r Col.Date (Cell.date none)) := by
  unfold loadTable exportTable
  rw [List.map_map]
  apply List.map_congr_left
  intro r hr
  funext c
  exact roundTripRow_eq r (hwf r hr) c

/-- Witness for the amended C3: the concrete well-formed row `row0`
round-trips to itself with its date erased. -/
theorem csv_round_trip_amended_witness :
    (∀ r ∈ [row0], wfRow r = true) ∧
      loadTable (exportTable [row0]) =
        [row0].map (fun r => setCol r Col.Date (Cell.date none)) :=
  have h : ∀ r ∈ [row0], wfRow r = true := by
    intro r hr
    rw [List.mem_singleton.mp hr]
    with_unfolding_all decide
  ⟨h, csv_round_trip_amended [row0] h⟩

end FlightDelay
